import Mathlib

/-!
Shallow embedding of the `sensors_rpi_pico` drivers

This file embeds the VEML7700 ambient-light-sensor driver
(`src/lib/veml7700-pico-library/VEML7700.c`) and the CMPS12 compass driver
(`src/target/standalone/src/cmps12.c`) into Lean and proves properties of the
embedded code.

Modelling conventions:
* C `uint16_t` values are `Nat` kept below `2 ^ 16` by the same masking the
  C code performs; bus byte buffers are `List Nat` with each byte reduced
  `% 256` where the C stores into `uint8_t`.
* The blocking I2C bus is an oracle `Bus`: a pair of response functions,
  indexed by the number of bus calls already issued, mirroring
  `i2c_write_blocking` / `i2c_read_blocking` (each returns the transferred
  byte count or a negative error code, and for reads also the bytes).
  Every driver operation additionally returns the list of bus transactions
  it issued, so "performs zero bus transactions" is the trace being `[]`.
* C `float` arithmetic in `veml7700_get_resolution` / `veml7700_read_lux`
  is modelled over `ℚ` with the exact literals of the source
  (`0.0042 = 42/10000`, etc.); the claims proved about it are about the
  formula's structure and its rational values, not about IEEE rounding.
* A possibly-NULL `veml7700_sensor_t *` is `Option Veml7700Sensor`;
  a possibly-NULL output pointer is a `Bool` flag (`true` = non-null), and
  the value the C code would store through it is returned as `Option Nat`
  (`none` when the code leaves the output untouched).
-/

/-! ## Constants from `VEML7700.h` -/

def VEML7700_I2C_ADDRESS : Nat := 0x10
def VEML7700_REG_ALS_CONF : Nat := 0x00
def VEML7700_REG_ALS_WH : Nat := 0x01
def VEML7700_REG_ALS_WL : Nat := 0x02
def VEML7700_REG_POWER_SAVING : Nat := 0x03
def VEML7700_REG_ALS : Nat := 0x04
def VEML7700_REG_WHITE : Nat := 0x05
def VEML7700_REG_ALS_INT : Nat := 0x06
def VEML7700_REG_ID : Nat := 0x07

def VEML7700_OK : Int := 0
def VEML7700_ERROR_INIT : Int := -1
def VEML7700_ERROR_I2C_TX : Int := -2
def VEML7700_ERROR_I2C_RX : Int := -3
def VEML7700_ERROR_CONFIG : Int := -4
def VEML7700_ERROR_INVALID_ARG : Int := -5

/-- The `veml7700_gain_t`: the four gain settings with their 2-bit codes. -/
inductive VemlGain where
  | g1
  | g2
  | g1_8
  | g1_4
deriving DecidableEq, Fintype

/-- Bit code of a gain setting (`VEML7700_GAIN_x` enumerator values). -/
def VemlGain.code : VemlGain → Nat
  | .g1 => 0b00
  | .g2 => 0b01
  | .g1_8 => 0b10
  | .g1_4 => 0b11

/-- The `veml7700_it_t`: the six integration-time settings with their 4-bit codes. -/
inductive VemlIt where
  | it25
  | it50
  | it100
  | it200
  | it400
  | it800
deriving DecidableEq, Fintype

/-- Bit code of an integration-time setting (`VEML7700_IT_xMS` values). -/
def VemlIt.code : VemlIt → Nat
  | .it25 => 0b1100
  | .it50 => 0b1000
  | .it100 => 0b0000
  | .it200 => 0b0001
  | .it400 => 0b0010
  | .it800 => 0b0011

/-- The `veml7700_pers_t` persistence settings (codes 0..3). -/
inductive VemlPers where
  | p1
  | p2
  | p4
  | p8
deriving DecidableEq, Fintype

def VemlPers.code : VemlPers → Nat
  | .p1 => 0b00
  | .p2 => 0b01
  | .p4 => 0b10
  | .p8 => 0b11

/-- The `veml7700_psm_t` power-saving modes (codes 0..3). -/
inductive VemlPsm where
  | m1
  | m2
  | m3
  | m4
deriving DecidableEq, Fintype

def VemlPsm.code : VemlPsm → Nat
  | .m1 => 0b00
  | .m2 => 0b01
  | .m3 => 0b10
  | .m4 => 0b11

/-- The `veml7700_sensor_t`: the driver's per-device state.  `current_gain` and
`current_it` hold raw bit codes (`Nat`), because `veml7700_read_lux` assigns
decoded register bits to them that may fall outside the C enumerators. -/
structure Veml7700Sensor where
  config_cache : Nat
  psm_cache : Nat
  initialized : Bool
  current_gain : Nat
  current_it : Nat
deriving DecidableEq

/-! ## Bus model -/

/-- One I2C transaction as issued by the driver. -/
inductive BusEvent where
  | write (addr : Nat) (bytes : List Nat) (nostop : Bool)
  | read (addr : Nat) (len : Nat)
deriving DecidableEq

/-- The bus oracle: responses to the `k`-th bus call.  `writeRes k bytes` is
the return value of `i2c_write_blocking` (transferred count or negative
error); `readRes k len` is the return value of `i2c_read_blocking` together
with the bytes it deposits in the caller's buffer. -/
structure Bus where
  writeRes : Nat → List Nat → Int
  readRes : Nat → Nat → Int × List Nat

/-! ## Register transport (`veml7700_write_reg` / `veml7700_read_reg`) -/

/-- The `veml7700_write_reg` from `VEML7700.c`.  `k` is the number of bus calls
already issued (indexes the oracle).  Returns the C status and the trace of
bus transactions performed. -/
def veml7700_write_reg (sensor : Option Veml7700Sensor) (reg data : Nat)
    (bus : Bus) (k : Nat) : Int × List BusEvent :=
  match sensor with
  | none => (VEML7700_ERROR_CONFIG, [])
  | some s =>
    if s.initialized = false then (VEML7700_ERROR_CONFIG, [])
    else
      let buffer := [reg, data % 256, (data >>> 8) % 256]
      let result := bus.writeRes k buffer
      let ev := BusEvent.write VEML7700_I2C_ADDRESS buffer false
      if result < 0 then (VEML7700_ERROR_I2C_TX, [ev])
      else if result ≠ 3 then (VEML7700_ERROR_I2C_TX, [ev])
      else (VEML7700_OK, [ev])

/-- The `veml7700_read_reg` from `VEML7700.c`.  `dataPtr` models whether the
output pointer is non-null; the middle component is the 16-bit value stored
through it (`none` when the C code does not store). -/
def veml7700_read_reg (sensor : Option Veml7700Sensor) (reg : Nat)
    (dataPtr : Bool) (bus : Bus) (k : Nat) :
    Int × Option Nat × List BusEvent :=
  match sensor with
  | none => (VEML7700_ERROR_CONFIG, none, [])
  | some s =>
    if s.initialized = false then (VEML7700_ERROR_CONFIG, none, [])
    else if dataPtr = false then (VEML7700_ERROR_INVALID_ARG, none, [])
    else
      let wres := bus.writeRes k [reg]
      let wev := BusEvent.write VEML7700_I2C_ADDRESS [reg] true
      if wres < 0 then (VEML7700_ERROR_I2C_TX, none, [wev])
      else if wres ≠ 1 then (VEML7700_ERROR_I2C_TX, none, [wev])
      else
        let rr := bus.readRes (k + 1) 2
        let rev := BusEvent.read VEML7700_I2C_ADDRESS 2
        if rr.1 < 0 then (VEML7700_ERROR_I2C_RX, none, [wev, rev])
        else if rr.1 ≠ 2 then (VEML7700_ERROR_I2C_RX, none, [wev, rev])
        else
          let b0 := rr.2.getD 0 0 % 256
          let b1 := rr.2.getD 1 0 % 256
          (VEML7700_OK, some ((b1 <<< 8) ||| b0), [wev, rev])

/-! ## Resolution (`veml7700_get_resolution`) -/

/-- The `switch (gain)` of `veml7700_get_resolution`, on the raw bit code
(default branch: 1.0). -/
def veml7700_gain_val (gain : Nat) : ℚ :=
  if gain = 0b10 then 125 / 1000
  else if gain = 0b11 then 25 / 100
  else if gain = 0b00 then 1
  else if gain = 0b01 then 2
  else 1

/-- The `switch (it)` of `veml7700_get_resolution`, on the raw bit code
(default branch: 100.0). -/
def veml7700_it_val (it : Nat) : ℚ :=
  if it = 0b1100 then 25
  else if it = 0b1000 then 50
  else if it = 0b0000 then 100
  else if it = 0b0001 then 200
  else if it = 0b0010 then 400
  else if it = 0b0011 then 800
  else 100

/-- The `veml7700_get_resolution`, with the C `float` literals as exact
rationals: `0.0042 * (2.0 / gain_val) * (800.0 / it_val)`, clamped to
`[0.0042, 2.1504]`. -/
def veml7700_get_resolution (gain it : Nat) : ℚ :=
  let resolution :=
    (42 / 10000) * (2 / veml7700_gain_val gain) * (800 / veml7700_it_val it)
  let r1 := if resolution > 21504 / 10000 then 21504 / 10000 else resolution
  if r1 < 42 / 10000 then 42 / 10000 else r1

example : veml7700_get_resolution 0b00 0b0000 = 672 / 10000 := by
  norm_num [veml7700_get_resolution, veml7700_gain_val, veml7700_it_val]

example : veml7700_get_resolution 0b10 0b1100 = 21504 / 10000 := by
  norm_num [veml7700_get_resolution, veml7700_gain_val, veml7700_it_val]

example : veml7700_get_resolution 0b01 0b0011 = 42 / 10000 := by
  norm_num [veml7700_get_resolution, veml7700_gain_val, veml7700_it_val]

/-! ## VEML7700 driver operations -/

/-- The `veml7700_init` from `VEML7700.c`.  `i2cPortValid` models whether the
`i2c_port` argument is non-null (the pin/baudrate arguments do not affect
the modelled state).  Returns the C status, the handle's state after the
call, and the bus trace. -/
def veml7700_init (sensor : Option Veml7700Sensor) (i2cPortValid : Bool)
    (bus : Bus) (k : Nat) : Int × Option Veml7700Sensor × List BusEvent :=
  match sensor with
  | none => (VEML7700_ERROR_INVALID_ARG, none, [])
  | some s0 =>
    if i2cPortValid = false then (VEML7700_ERROR_INVALID_ARG, some s0, [])
    else
      let s := { s0 with initialized := true }
      let idr := veml7700_read_reg (some s) VEML7700_REG_ID true bus k
      if idr.1 ≠ VEML7700_OK then
        (VEML7700_ERROR_INIT, some { s with initialized := false }, idr.2.2)
      else
        let device_id := (idr.2.1).getD 0
        if (device_id &&& 0xFF) ≠ 0x81 ∧ (device_id >>> 8) ≠ 0x28 then
          (VEML7700_ERROR_INIT, some { s with initialized := false }, idr.2.2)
        else
          let k1 := k + idr.2.2.length
          let s1 := { s with
            current_gain := VemlGain.g1.code
            current_it := VemlIt.it100.code
            config_cache :=
              (VemlGain.g1.code <<< 11) ||| (VemlIt.it100.code <<< 6) |||
                (VemlPers.p1.code <<< 4) ||| (0 <<< 1) ||| 0 }
          let w1 := veml7700_write_reg (some s1) VEML7700_REG_ALS_CONF
            s1.config_cache bus k1
          if w1.1 ≠ VEML7700_OK then
            (w1.1, some { s1 with initialized := false }, idr.2.2 ++ w1.2)
          else
            let k2 := k1 + w1.2.length
            let s2 := { s1 with psm_cache := 0x0000 }
            let w2 := veml7700_write_reg (some s2) VEML7700_REG_POWER_SAVING
              s2.psm_cache bus k2
            if w2.1 ≠ VEML7700_OK then
              (w2.1, some { s2 with initialized := false },
                idr.2.2 ++ w1.2 ++ w2.2)
            else
              let k3 := k2 + w2.2.length
              let w3 := veml7700_write_reg (some s2) VEML7700_REG_ALS_WH
                0xFFFF bus k3
              if w3.1 ≠ VEML7700_OK then
                (w3.1, some { s2 with initialized := false },
                  idr.2.2 ++ w1.2 ++ w2.2 ++ w3.2)
              else
                let k4 := k3 + w3.2.length
                let w4 := veml7700_write_reg (some s2) VEML7700_REG_ALS_WL
                  0x0000 bus k4
                if w4.1 ≠ VEML7700_OK then
                  (w4.1, some { s2 with initialized := false },
                    idr.2.2 ++ w1.2 ++ w2.2 ++ w3.2 ++ w4.2)
                else
                  (VEML7700_OK, some { s2 with initialized := true },
                    idr.2.2 ++ w1.2 ++ w2.2 ++ w3.2 ++ w4.2)

/-- The `veml7700_read_als`.  `outPtr` models the `als_value` pointer. -/
def veml7700_read_als (sensor : Option Veml7700Sensor) (outPtr : Bool)
    (bus : Bus) (k : Nat) : Int × Option Nat × List BusEvent :=
  match sensor with
  | none => (VEML7700_ERROR_CONFIG, none, [])
  | some s =>
    if s.initialized = false then (VEML7700_ERROR_CONFIG, none, [])
    else if outPtr = false then (VEML7700_ERROR_INVALID_ARG, none, [])
    else veml7700_read_reg (some s) VEML7700_REG_ALS outPtr bus k

/-- The `veml7700_read_white`. -/
def veml7700_read_white (sensor : Option Veml7700Sensor) (outPtr : Bool)
    (bus : Bus) (k : Nat) : Int × Option Nat × List BusEvent :=
  match sensor with
  | none => (VEML7700_ERROR_CONFIG, none, [])
  | some s =>
    if s.initialized = false then (VEML7700_ERROR_CONFIG, none, [])
    else if outPtr = false then (VEML7700_ERROR_INVALID_ARG, none, [])
    else veml7700_read_reg (some s) VEML7700_REG_WHITE outPtr bus k

/-- The `veml7700_read_lux`.  Returns the C status, the handle's state after the
call, the value stored through `lux_value` (`none` when the code does not
store), and the bus trace.  The C `float` product is modelled over `ℚ`. -/
def veml7700_read_lux (sensor : Option Veml7700Sensor) (outPtr : Bool)
    (bus : Bus) (k : Nat) :
    Int × Option Veml7700Sensor × Option ℚ × List BusEvent :=
  match sensor with
  | none => (VEML7700_ERROR_CONFIG, none, none, [])
  | some s =>
    if s.initialized = false then (VEML7700_ERROR_CONFIG, some s, none, [])
    else if outPtr = false then
      (VEML7700_ERROR_INVALID_ARG, some s, none, [])
    else
      let a := veml7700_read_als (some s) true bus k
      if a.1 ≠ VEML7700_OK then (a.1, some s, some (-1), a.2.2)
      else
        let als_raw := (a.2.1).getD 0
        let c := veml7700_read_reg (some s) VEML7700_REG_ALS_CONF true bus
          (k + a.2.2.length)
        if c.1 ≠ VEML7700_OK then
          (c.1, some s, some (-1), a.2.2 ++ c.2.2)
        else
          let s1 := { s with config_cache := (c.2.1).getD 0 }
          let s2 := { s1 with
            current_gain := (s1.config_cache >>> 11) &&& 0x03
            current_it := (s1.config_cache >>> 6) &&& 0x0F }
          let resolution :=
            veml7700_get_resolution s2.current_gain s2.current_it
          (VEML7700_OK, some s2, some ((als_raw : ℚ) * resolution),
            a.2.2 ++ c.2.2)

/-- The `veml7700_set_gain`: updates the gain bits of the shadow, writes it, and
commits `current_gain` only on write success. -/
def veml7700_set_gain (sensor : Option Veml7700Sensor) (gain : VemlGain)
    (bus : Bus) (k : Nat) : Int × Option Veml7700Sensor × List BusEvent :=
  match sensor with
  | none => (VEML7700_ERROR_CONFIG, none, [])
  | some s =>
    if s.initialized = false then (VEML7700_ERROR_CONFIG, some s, [])
    else
      let s1 := { s with config_cache :=
        (s.config_cache &&& (0xFFFF ^^^ (0b11 <<< 11))) ||| (gain.code <<< 11) }
      let w := veml7700_write_reg (some s1) VEML7700_REG_ALS_CONF
        s1.config_cache bus k
      if w.1 = VEML7700_OK then
        (w.1, some { s1 with current_gain := gain.code }, w.2)
      else (w.1, some s1, w.2)

/-- The `veml7700_set_integration_time`: same discipline for the IT bits. -/
def veml7700_set_integration_time (sensor : Option Veml7700Sensor)
    (it : VemlIt) (bus : Bus) (k : Nat) :
    Int × Option Veml7700Sensor × List BusEvent :=
  match sensor with
  | none => (VEML7700_ERROR_CONFIG, none, [])
  | some s =>
    if s.initialized = false then (VEML7700_ERROR_CONFIG, some s, [])
    else
      let s1 := { s with config_cache :=
        (s.config_cache &&& (0xFFFF ^^^ (0b1111 <<< 6))) ||| (it.code <<< 6) }
      let w := veml7700_write_reg (some s1) VEML7700_REG_ALS_CONF
        s1.config_cache bus k
      if w.1 = VEML7700_OK then
        (w.1, some { s1 with current_it := it.code }, w.2)
      else (w.1, some s1, w.2)

/-- The `veml7700_set_persistence`: updates the persistence bits of the shadow
and writes it (no typed field to commit). -/
def veml7700_set_persistence (sensor : Option Veml7700Sensor)
    (pers : VemlPers) (bus : Bus) (k : Nat) :
    Int × Option Veml7700Sensor × List BusEvent :=
  match sensor with
  | none => (VEML7700_ERROR_CONFIG, none, [])
  | some s =>
    if s.initialized = false then (VEML7700_ERROR_CONFIG, some s, [])
    else
      let s1 := { s with config_cache :=
        (s.config_cache &&& (0xFFFF ^^^ (0b11 <<< 4))) ||| (pers.code <<< 4) }
      let w := veml7700_write_reg (some s1) VEML7700_REG_ALS_CONF
        s1.config_cache bus k
      (w.1, some s1, w.2)

/-- The `veml7700_enable_interrupt`: sets or clears bit 1 of the shadow and
writes it. -/
def veml7700_enable_interrupt (sensor : Option Veml7700Sensor)
    (enable : Bool) (bus : Bus) (k : Nat) :
    Int × Option Veml7700Sensor × List BusEvent :=
  match sensor with
  | none => (VEML7700_ERROR_CONFIG, none, [])
  | some s =>
    if s.initialized = false then (VEML7700_ERROR_CONFIG, some s, [])
    else
      let s1 := { s with config_cache :=
        if enable then s.config_cache ||| (1 <<< 1)
        else s.config_cache &&& (0xFFFF ^^^ (1 <<< 1)) }
      let w := veml7700_write_reg (some s1) VEML7700_REG_ALS_CONF
        s1.config_cache bus k
      (w.1, some s1, w.2)

/-- The `veml7700_set_high_threshold`: direct write, no shadow involved. -/
def veml7700_set_high_threshold (sensor : Option Veml7700Sensor)
    (threshold : Nat) (bus : Bus) (k : Nat) : Int × List BusEvent :=
  match sensor with
  | none => (VEML7700_ERROR_CONFIG, [])
  | some s =>
    if s.initialized = false then (VEML7700_ERROR_CONFIG, [])
    else veml7700_write_reg (some s) VEML7700_REG_ALS_WH threshold bus k

/-- The `veml7700_set_low_threshold`: direct write, no shadow involved. -/
def veml7700_set_low_threshold (sensor : Option Veml7700Sensor)
    (threshold : Nat) (bus : Bus) (k : Nat) : Int × List BusEvent :=
  match sensor with
  | none => (VEML7700_ERROR_CONFIG, [])
  | some s =>
    if s.initialized = false then (VEML7700_ERROR_CONFIG, [])
    else veml7700_write_reg (some s) VEML7700_REG_ALS_WL threshold bus k

/-- The `veml7700_read_interrupt_status`. -/
def veml7700_read_interrupt_status (sensor : Option Veml7700Sensor)
    (outPtr : Bool) (bus : Bus) (k : Nat) :
    Int × Option Nat × List BusEvent :=
  match sensor with
  | none => (VEML7700_ERROR_CONFIG, none, [])
  | some s =>
    if s.initialized = false then (VEML7700_ERROR_CONFIG, none, [])
    else if outPtr = false then (VEML7700_ERROR_INVALID_ARG, none, [])
    else veml7700_read_reg (some s) VEML7700_REG_ALS_INT outPtr bus k

/-- The `veml7700_enable_power_saving`: sets or clears bit 0 of the PSM shadow
and writes it. -/
def veml7700_enable_power_saving (sensor : Option Veml7700Sensor)
    (enable : Bool) (bus : Bus) (k : Nat) :
    Int × Option Veml7700Sensor × List BusEvent :=
  match sensor with
  | none => (VEML7700_ERROR_CONFIG, none, [])
  | some s =>
    if s.initialized = false then (VEML7700_ERROR_CONFIG, some s, [])
    else
      let s1 := { s with psm_cache :=
        if enable then s.psm_cache ||| 1
        else s.psm_cache &&& (0xFFFF ^^^ 1) }
      let w := veml7700_write_reg (some s1) VEML7700_REG_POWER_SAVING
        s1.psm_cache bus k
      (w.1, some s1, w.2)

/-- The `veml7700_set_power_saving_mode`: updates bits 1-2 of the PSM shadow and
writes it. -/
def veml7700_set_power_saving_mode (sensor : Option Veml7700Sensor)
    (psm : VemlPsm) (bus : Bus) (k : Nat) :
    Int × Option Veml7700Sensor × List BusEvent :=
  match sensor with
  | none => (VEML7700_ERROR_CONFIG, none, [])
  | some s =>
    if s.initialized = false then (VEML7700_ERROR_CONFIG, some s, [])
    else
      let s1 := { s with psm_cache :=
        (s.psm_cache &&& (0xFFFF ^^^ (0b11 <<< 1))) ||| (psm.code <<< 1) }
      let w := veml7700_write_reg (some s1) VEML7700_REG_POWER_SAVING
        s1.psm_cache bus k
      (w.1, some s1, w.2)

/-- The `veml7700_power_on`: clears the shutdown bit of the shadow and writes it
(the 10ms settle sleep on success is not modelled). -/
def veml7700_power_on (sensor : Option Veml7700Sensor) (bus : Bus)
    (k : Nat) : Int × Option Veml7700Sensor × List BusEvent :=
  match sensor with
  | none => (VEML7700_ERROR_CONFIG, none, [])
  | some s =>
    if s.initialized = false then (VEML7700_ERROR_CONFIG, some s, [])
    else
      let s1 := { s with config_cache := s.config_cache &&& (0xFFFF ^^^ 1) }
      let w := veml7700_write_reg (some s1) VEML7700_REG_ALS_CONF
        s1.config_cache bus k
      (w.1, some s1, w.2)

/-- The `veml7700_shutdown`: sets the shutdown bit of the shadow and writes it. -/
def veml7700_shutdown (sensor : Option Veml7700Sensor) (bus : Bus)
    (k : Nat) : Int × Option Veml7700Sensor × List BusEvent :=
  match sensor with
  | none => (VEML7700_ERROR_CONFIG, none, [])
  | some s =>
    if s.initialized = false then (VEML7700_ERROR_CONFIG, some s, [])
    else
      let s1 := { s with config_cache := s.config_cache ||| 1 }
      let w := veml7700_write_reg (some s1) VEML7700_REG_ALS_CONF
        s1.config_cache bus k
      (w.1, some s1, w.2)

/-- The `veml7700_read_device_id`. -/
def veml7700_read_device_id (sensor : Option Veml7700Sensor) (outPtr : Bool)
    (bus : Bus) (k : Nat) : Int × Option Nat × List BusEvent :=
  match sensor with
  | none => (VEML7700_ERROR_CONFIG, none, [])
  | some s =>
    if s.initialized = false then (VEML7700_ERROR_CONFIG, none, [])
    else if outPtr = false then (VEML7700_ERROR_INVALID_ARG, none, [])
    else veml7700_read_reg (some s) VEML7700_REG_ID outPtr bus k

/-! ## Dispatcher over the post-init VEML7700 entry points

`init` is the operation that establishes the initialized state and is
therefore not itself a member of this family (on a null handle it returns
`InvalidArgument`, and on a not-yet-initialized handle it proceeds, by
design). -/

/-- One call to a post-init VEML7700 entry point, with its arguments. -/
inductive VemlOp where
  | read_als (outPtr : Bool)
  | read_white (outPtr : Bool)
  | read_lux (outPtr : Bool)
  | set_gain (g : VemlGain)
  | set_integration_time (t : VemlIt)
  | set_persistence (p : VemlPers)
  | enable_interrupt (e : Bool)
  | set_high_threshold (v : Nat)
  | set_low_threshold (v : Nat)
  | read_interrupt_status (outPtr : Bool)
  | enable_power_saving (e : Bool)
  | set_power_saving_mode (m : VemlPsm)
  | power_on
  | shutdown
  | read_device_id (outPtr : Bool)
deriving DecidableEq

/-- Run one post-init entry point; project out its C status and bus trace. -/
def veml7700_run_op (op : VemlOp) (sensor : Option Veml7700Sensor)
    (bus : Bus) (k : Nat) : Int × List BusEvent :=
  match op with
  | .read_als p =>
    let r := veml7700_read_als sensor p bus k
    (r.1, r.2.2)
  | .read_white p =>
    let r := veml7700_read_white sensor p bus k
    (r.1, r.2.2)
  | .read_lux p =>
    let r := veml7700_read_lux sensor p bus k
    (r.1, r.2.2.2)
  | .set_gain g =>
    let r := veml7700_set_gain sensor g bus k
    (r.1, r.2.2)
  | .set_integration_time t =>
    let r := veml7700_set_integration_time sensor t bus k
    (r.1, r.2.2)
  | .set_persistence p =>
    let r := veml7700_set_persistence sensor p bus k
    (r.1, r.2.2)
  | .enable_interrupt e =>
    let r := veml7700_enable_interrupt sensor e bus k
    (r.1, r.2.2)
  | .set_high_threshold v => veml7700_set_high_threshold sensor v bus k
  | .set_low_threshold v => veml7700_set_low_threshold sensor v bus k
  | .read_interrupt_status p =>
    let r := veml7700_read_interrupt_status sensor p bus k
    (r.1, r.2.2)
  | .enable_power_saving e =>
    let r := veml7700_enable_power_saving sensor e bus k
    (r.1, r.2.2)
  | .set_power_saving_mode m =>
    let r := veml7700_set_power_saving_mode sensor m bus k
    (r.1, r.2.2)
  | .power_on =>
    let r := veml7700_power_on sensor bus k
    (r.1, r.2.2)
  | .shutdown =>
    let r := veml7700_shutdown sensor bus k
    (r.1, r.2.2)
  | .read_device_id p =>
    let r := veml7700_read_device_id sensor p bus k
    (r.1, r.2.2)

/-! ## CMPS12 compass driver (`cmps12.c`) -/

/-- The `cmps12_t`: the compass state.  The `i2c_inst_t *` bus handle is
modelled as an opaque tag. -/
structure Cmps12 where
  i2c : Nat
  angle8 : Nat
  angle16 : Nat
  pitch : Int
  roll : Int
deriving DecidableEq

/-- The `cmps12_init`: stores the bus handle, zeroes the data fields, then
issues the 1-byte presence probe; `probeResult` is the value
`i2c_read_blocking` returns for that probe.  Returns the struct as left by
the call and the C `bool` result (`result >= 0`). -/
def cmps12_init (compass : Cmps12) (i2c : Nat) (probeResult : Int) :
    Cmps12 × Bool :=
  let c := { compass with
    i2c := i2c, angle8 := 0, angle16 := 0, pitch := 0, roll := 0 }
  (c, decide (0 ≤ probeResult))

/-- The 16-entry compass-point table of `cmps12_get_cardinal_direction`. -/
def cmps12_directions : List String :=
  ["N", "NNE", "NE", "ENE",
   "E", "ESE", "SE", "SSE",
   "S", "SSW", "SW", "WSW",
   "W", "WNW", "NW", "NNW"]

/-- The index computation `(int)((angle / 22.5) + 0.5)` of
`cmps12_get_cardinal_direction`, as exact integer arithmetic.

The C expression promotes `angle` to `double` and truncates.  The exact
value of `angle / 22.5 + 0.5` is `(4 * angle + 45) / 90`, whose numerator is
odd, so it is never an integer and its distance to any integer is at least
`1 / 90`; for `angle < 2 ^ 16` the two `double` roundings perturb it by less
than `2 ^ -40`.  The truncation therefore always equals the exact floor,
which on nonnegative values is natural division. -/
def cmps12_val (angle : Nat) : Nat :=
  (4 * angle + 45) / 90

/-- The `cmps12_get_cardinal_direction`: `directions[val % 16]`. -/
def cmps12_get_cardinal_direction (angle : Nat) : String :=
  cmps12_directions.getD (cmps12_val angle % 16) ""

/-- Modelled from the spec's words (§4.3): maps the angle onto the 16-point
table using `round(angle / 22.5) mod 16`, with mathematical rounding on
`ℚ` (`22.5 = 225 / 10`). -/
def cmps12_direction_by_round (angle : Nat) : String :=
  cmps12_directions.getD ((round ((angle : ℚ) / (225 / 10))).toNat % 16) ""

example : cmps12_get_cardinal_direction 0 = "N" := by decide
example : cmps12_get_cardinal_direction 12 = "NNE" := by decide
example : cmps12_get_cardinal_direction 225 = "SW" := by decide
example : cmps12_get_cardinal_direction 3600 = "N" := by decide

/-! ## Theorems: CMPS12 -/

/-- The code's truncated index equals mathematical rounding of
`angle / 22.5` on `ℚ`. -/
lemma cmps12_round_eq_val (a : Nat) :
    (round ((a : ℚ) / (225 / 10))).toNat = cmps12_val a := by
  have h1 : ((a : ℚ) / (225 / 10)) + 1 / 2 =
      ((4 * a + 45 : ℕ) : ℚ) / ((90 : ℕ) : ℚ) := by
    push_cast
    ring
  rw [round_eq, h1, Int.floor_toNat, Nat.floor_div_eq_div]
  rfl

/-- Claim C10: `cmps12_init` stores the bus handle and zeroes the `angle8`,
`angle16`, `pitch` and `roll` fields before the presence probe; the
caller's struct is left in this reset state even when the probe fails
(`probeResult < 0`), with no rollback, and the returned flag is exactly
`probeResult >= 0`. -/
theorem cmps12_init_resets_unconditionally (compass : Cmps12) (i2c : Nat)
    (probeResult : Int) :
    (cmps12_init compass i2c probeResult).1 =
      { i2c := i2c, angle8 := 0, angle16 := 0, pitch := 0, roll := 0 } ∧
    ((cmps12_init compass i2c probeResult).2 = false ↔ probeResult < 0) := by
  constructor
  · rfl
  · simp only [cmps12_init, decide_eq_false_iff_not, not_le]

/-- Claim C4, counterexample: at input 225 the function returns "SW", not
"NNE" (it divides the input by 22.5 treating it as whole degrees); the
actual first transition from "N" to "NNE" is at input 12. -/
theorem cmps12_first_transition_cex :
    cmps12_get_cardinal_direction 225 = "SW" ∧
    ("SW" : String) ≠ "NNE" ∧
    cmps12_get_cardinal_direction 11 = "N" ∧
    cmps12_get_cardinal_direction 12 = "NNE" := by
  decide

/-- Claim C4, amended: the mapping satisfies
`direction 0 = direction 3600 = "N"` and is cyclic with period 3600 (the
input is whole degrees, so 3600 spans ten full turns); the first input at
which the output transitions from "N" to "NNE" is 12, not 225. -/
theorem cmps12_direction_cyclic :
    cmps12_get_cardinal_direction 0 = "N" ∧
    cmps12_get_cardinal_direction 3600 = "N" ∧
    (∀ a : Nat, cmps12_get_cardinal_direction (a + 3600) =
      cmps12_get_cardinal_direction a) ∧
    (∀ a : Nat, a < 12 → cmps12_get_cardinal_direction a = "N") ∧
    cmps12_get_cardinal_direction 12 = "NNE" := by
  refine ⟨by decide, by decide, ?_, ?_, by decide⟩
  · intro a
    have hv : cmps12_val (a + 3600) = cmps12_val a + 160 := by
      unfold cmps12_val
      omega
    unfold cmps12_get_cardinal_direction
    rw [hv]
    congr 1
    omega
  · intro a ha
    have hv : cmps12_val a = 0 := by
      unfold cmps12_val
      omega
    unfold cmps12_get_cardinal_direction
    rw [hv]
    decide

/-- Witness for the amended C4 theorem at input 5. -/
theorem cmps12_direction_cyclic_witness :
    5 < 12 ∧ cmps12_get_cardinal_direction 5 = "N" :=
  ⟨by decide, cmps12_direction_cyclic.2.2.2.1 5 (by decide)⟩

/-- Claim C7: for every input in 0–359 (indeed for every input), the code's
cardinal direction equals the spec's `round(angle / 22.5) mod 16` lookup in
the 16-entry table. -/
theorem cmps12_direction_matches_round (angle : Nat) (_h : angle ≤ 359) :
    cmps12_get_cardinal_direction angle = cmps12_direction_by_round angle := by
  unfold cmps12_get_cardinal_direction cmps12_direction_by_round
  rw [cmps12_round_eq_val]

/-- Witness for C7 at input 100. -/
theorem cmps12_direction_matches_round_witness :
    100 ≤ 359 ∧
    cmps12_get_cardinal_direction 100 = cmps12_direction_by_round 100 :=
  ⟨by decide, cmps12_direction_matches_round 100 (by decide)⟩

/-- Claim C9: for every `uint16_t` input the computed index `mod 16` is in
bounds for the 16-entry table, and the function returns one of the 16
direction strings. -/
theorem cmps12_direction_total (angle : Nat) (_h : angle < 65536) :
    cmps12_val angle % 16 < cmps12_directions.length ∧
    cmps12_get_cardinal_direction angle ∈ cmps12_directions := by
  have hlt : cmps12_val angle % 16 < cmps12_directions.length := by
    show _ < 16
    exact Nat.mod_lt _ (by norm_num)
  refine ⟨hlt, ?_⟩
  unfold cmps12_get_cardinal_direction
  rw [List.getD_eq_getElem cmps12_directions "" hlt]
  exact List.getElem_mem hlt

/-- Witness for C9 at input 65535. -/
theorem cmps12_direction_total_witness :
    65535 < 65536 ∧
    (cmps12_val 65535 % 16 < cmps12_directions.length ∧
      cmps12_get_cardinal_direction 65535 ∈ cmps12_directions) :=
  ⟨by decide, cmps12_direction_total 65535 (by decide)⟩

/-! ## Theorems: VEML7700 transport and error policy -/

/-- A bus whose write calls all return `r1` and whose read calls all return
`r2` with `data`. -/
def constBus (r1 r2 : Int) (data : List Nat) : Bus :=
  { writeRes := fun _ _ => r1
    readRes := fun _ _ => (r2, data) }

/-- Claim C8: in the transport helpers, a negative bus result or a transferred
count different from the requested count (3 bytes for a register write,
1 then 2 bytes for a write-then-read) yields `VEML7700_ERROR_I2C_TX` for
the write phase and `VEML7700_ERROR_I2C_RX` for the read phase; only the
exact requested count proceeds as success. -/
theorem veml7700_transport_error_classification (s : Veml7700Sensor)
    (hs : s.initialized = true) (r1 r2 : Int) (data : List Nat)
    (reg v k : Nat) :
    ((veml7700_write_reg (some s) reg v (constBus r1 r2 data) k).1 =
      if r1 = 3 then VEML7700_OK else VEML7700_ERROR_I2C_TX) ∧
    ((veml7700_read_reg (some s) reg true (constBus r1 r2 data) k).1 =
      if r1 = 1 then
        (if r2 = 2 then VEML7700_OK else VEML7700_ERROR_I2C_RX)
      else VEML7700_ERROR_I2C_TX) := by
  constructor
  · simp only [veml7700_write_reg, constBus, hs]
    split_ifs <;> first | rfl | omega | simp_all
  · simp only [veml7700_read_reg, constBus, hs]
    split_ifs <;> first | rfl | omega | simp_all

/-- Witness for C8: a bus that reports a negative write result and a short
read. -/
theorem veml7700_transport_error_classification_witness :
    (⟨0, 0, true, 0, 0⟩ : Veml7700Sensor).initialized = true ∧
    ((veml7700_write_reg (some ⟨0, 0, true, 0, 0⟩) 0 0
        (constBus (-1) 1 []) 0).1 =
      if (-1 : Int) = 3 then VEML7700_OK else VEML7700_ERROR_I2C_TX) ∧
    ((veml7700_read_reg (some ⟨0, 0, true, 0, 0⟩) 0 true
        (constBus (-1) 1 []) 0).1 =
      if (-1 : Int) = 1 then
        (if (1 : Int) = 2 then VEML7700_OK else VEML7700_ERROR_I2C_RX)
      else VEML7700_ERROR_I2C_TX) :=
  ⟨rfl, veml7700_transport_error_classification ⟨0, 0, true, 0, 0⟩ rfl
    (-1) 1 [] 0 0 0⟩

/-- Claim C5: every post-init driver entry point invoked on a null handle or
a not-yet-initialized handle returns `VEML7700_ERROR_CONFIG` and issues no
bus transaction at all. -/
theorem veml7700_uninit_rejects (op : VemlOp) (sensor : Option Veml7700Sensor)
    (bus : Bus) (k : Nat)
    (h : sensor = none ∨ ∃ s, sensor = some s ∧ s.initialized = false) :
    veml7700_run_op op sensor bus k = (VEML7700_ERROR_CONFIG, []) := by
  rcases h with rfl | ⟨s, rfl, hs⟩
  · cases op <;> rfl
  · cases op <;>
      simp [veml7700_run_op, veml7700_read_als, veml7700_read_white,
        veml7700_read_lux, veml7700_set_gain, veml7700_set_integration_time,
        veml7700_set_persistence, veml7700_enable_interrupt,
        veml7700_set_high_threshold, veml7700_set_low_threshold,
        veml7700_read_interrupt_status, veml7700_enable_power_saving,
        veml7700_set_power_saving_mode, veml7700_power_on, veml7700_shutdown,
        veml7700_read_device_id, hs]

/-- A healthy bus (all transfers complete), used to show the rejection
happens regardless of the bus. -/
def healthyBus : Bus :=
  { writeRes := fun _ bytes => Int.ofNat bytes.length
    readRes := fun _ len => (Int.ofNat len, [0, 0]) }

/-- Witness for C5: a null handle and an uninitialized handle, each on a
healthy bus. -/
theorem veml7700_uninit_rejects_witness :
    veml7700_run_op (VemlOp.set_gain VemlGain.g2) none healthyBus 0 =
      (VEML7700_ERROR_CONFIG, []) ∧
    veml7700_run_op VemlOp.shutdown (some ⟨0, 0, false, 0, 0⟩)
        healthyBus 0 =
      (VEML7700_ERROR_CONFIG, []) :=
  ⟨veml7700_uninit_rejects _ _ _ _ (Or.inl rfl),
   veml7700_uninit_rejects _ _ _ _ (Or.inr ⟨_, rfl, rfl⟩)⟩

/-! ## Theorems: VEML7700 shadow-register discipline -/

/-- A bus on which every transfer fails with `PICO_ERROR_GENERIC` (-1). -/
def failBus : Bus :=
  { writeRes := fun _ _ => -1
    readRes := fun _ _ => (-1, []) }

/-- Claim C1, counterexample: starting from `config_cache = 0` on a failing
bus, `veml7700_set_gain` returns an error yet leaves `config_cache` equal
to `0x800` (the new gain ×2 bits), not its pre-call value `0`. -/
theorem veml7700_set_gain_cache_not_rolled_back :
    (veml7700_set_gain (some ⟨0, 0, true, 0, 0⟩) VemlGain.g2 failBus 0).1 ≠
      VEML7700_OK ∧
    Option.map Veml7700Sensor.config_cache
        (veml7700_set_gain (some ⟨0, 0, true, 0, 0⟩)
          VemlGain.g2 failBus 0).2.1 = some 0x800 ∧
    (0x800 : Nat) ≠ 0 := by
  decide

/-- Claim C1, amended: when a gain/integration-time setter's register write
fails, the typed fields `current_gain` / `current_it` are left unchanged
(commit-after-success applies to them), but the `config_cache` shadow has
already been updated with the new bit-field value before the write attempt
and is not rolled back; the persistence and interrupt setters update the
shadow unconditionally the same way, so the pre-write cache update is not
unique to `init`. -/
theorem veml7700_setter_shadow_discipline (s : Veml7700Sensor)
    (hs : s.initialized = true) (bus : Bus) (k : Nat) (g : VemlGain)
    (t : VemlIt) (p : VemlPers) (e : Bool) :
    ((veml7700_set_gain (some s) g bus k).1 ≠ VEML7700_OK →
      (veml7700_set_gain (some s) g bus k).2.1 =
        some { s with config_cache :=
          (s.config_cache &&& (0xFFFF ^^^ (0b11 <<< 11))) |||
            (g.code <<< 11) }) ∧
    ((veml7700_set_integration_time (some s) t bus k).1 ≠ VEML7700_OK →
      (veml7700_set_integration_time (some s) t bus k).2.1 =
        some { s with config_cache :=
          (s.config_cache &&& (0xFFFF ^^^ (0b1111 <<< 6))) |||
            (t.code <<< 6) }) ∧
    ((veml7700_set_persistence (some s) p bus k).2.1 =
      some { s with config_cache :=
        (s.config_cache &&& (0xFFFF ^^^ (0b11 <<< 4))) |||
          (p.code <<< 4) }) ∧
    ((veml7700_enable_interrupt (some s) e bus k).2.1 =
      some { s with config_cache :=
        if e then s.config_cache ||| (1 <<< 1)
        else s.config_cache &&& (0xFFFF ^^^ (1 <<< 1)) }) := by
  refine ⟨?_, ?_, ?_, ?_⟩
  · intro hfail
    simp only [veml7700_set_gain, hs, Bool.true_eq_false, if_false]
      at hfail ⊢
    split_ifs at hfail ⊢ with h
    · exact absurd h (by simpa using hfail)
    · rfl
  · intro hfail
    simp only [veml7700_set_integration_time, hs, Bool.true_eq_false,
      if_false] at hfail ⊢
    split_ifs at hfail ⊢ with h
    · exact absurd h (by simpa using hfail)
    · rfl
  · simp only [veml7700_set_persistence, hs, Bool.true_eq_false, if_false]
  · simp only [veml7700_enable_interrupt, hs, Bool.true_eq_false, if_false]

/-- Witness for the amended C1 theorem: all four setters on a failing bus. -/
theorem veml7700_setter_shadow_discipline_witness :
    ((veml7700_set_gain (some ⟨0, 0, true, 0, 0⟩) VemlGain.g2 failBus 0).1 ≠
      VEML7700_OK ∧
     (veml7700_set_gain (some ⟨0, 0, true, 0, 0⟩)
        VemlGain.g2 failBus 0).2.1 = some ⟨0x800, 0, true, 0, 0⟩) ∧
    ((veml7700_set_integration_time (some ⟨0, 0, true, 0, 0⟩)
        VemlIt.it800 failBus 0).1 ≠ VEML7700_OK ∧
     (veml7700_set_integration_time (some ⟨0, 0, true, 0, 0⟩)
        VemlIt.it800 failBus 0).2.1 = some ⟨0xC0, 0, true, 0, 0⟩) ∧
    (veml7700_set_persistence (some ⟨0, 0, true, 0, 0⟩)
        VemlPers.p8 failBus 0).2.1 = some ⟨0x30, 0, true, 0, 0⟩ ∧
    (veml7700_enable_interrupt (some ⟨0, 0, true, 0, 0⟩)
        true failBus 0).2.1 = some ⟨0x02, 0, true, 0, 0⟩ := by
  have h := veml7700_setter_shadow_discipline ⟨0, 0, true, 0, 0⟩ rfl
    failBus 0 VemlGain.g2 VemlIt.it800 VemlPers.p8 true
  exact ⟨⟨by decide, h.1 (by decide)⟩, ⟨by decide, h.2.1 (by decide)⟩,
    h.2.2.1, h.2.2.2⟩

/-! ## Theorems: resolution bounds and monotonicity -/

/-- The gain factor of the resolution formula is positive for every code. -/
lemma veml7700_gain_val_pos (gain : Nat) : 0 < veml7700_gain_val gain := by
  unfold veml7700_gain_val
  split_ifs <;> norm_num

/-- The integration-time factor is positive for every code. -/
lemma veml7700_it_val_pos (it : Nat) : 0 < veml7700_it_val it := by
  unfold veml7700_it_val
  split_ifs <;> norm_num

/-- The clamp keeps the resolution inside `[0.0042, 2.1504]` for every pair
of codes. -/
lemma veml7700_resolution_bounds (gain it : Nat) :
    42 / 10000 ≤ veml7700_get_resolution gain it ∧
    veml7700_get_resolution gain it ≤ 21504 / 10000 := by
  unfold veml7700_get_resolution
  dsimp only
  split_ifs <;> constructor <;> linarith

/-- Monotonicity of the clamped resolution in the two factor values. -/
lemma veml7700_resolution_mono {ga gb ta tb : Nat}
    (hg : veml7700_gain_val gb ≤ veml7700_gain_val ga)
    (ht : veml7700_it_val tb ≤ veml7700_it_val ta) :
    veml7700_get_resolution ga ta ≤ veml7700_get_resolution gb tb := by
  have hg1 := veml7700_gain_val_pos ga
  have hg2 := veml7700_gain_val_pos gb
  have ht1 := veml7700_it_val_pos ta
  have ht2 := veml7700_it_val_pos tb
  have hraw : (42 / 10000 : ℚ) * (2 / veml7700_gain_val ga) *
      (800 / veml7700_it_val ta) ≤
      (42 / 10000 : ℚ) * (2 / veml7700_gain_val gb) *
      (800 / veml7700_it_val tb) := by
    gcongr
  have hlohi : (42 : ℚ) / 10000 ≤ 21504 / 10000 := by norm_num
  unfold veml7700_get_resolution
  dsimp only
  split_ifs <;> linarith

/-- Claim C6: for all valid gain/integration-time enumeration pairs the
resolution lies within `[0.0042, 2.1504]`, and it is monotone
non-decreasing as the gain factor decreases or the integration-time factor
decreases. -/
theorem veml7700_resolution_bounds_and_mono :
    (∀ (g : VemlGain) (t : VemlIt),
      42 / 10000 ≤ veml7700_get_resolution g.code t.code ∧
      veml7700_get_resolution g.code t.code ≤ 21504 / 10000) ∧
    (∀ (gA gB : VemlGain) (tA tB : VemlIt),
      veml7700_gain_val gB.code ≤ veml7700_gain_val gA.code →
      veml7700_it_val tB.code ≤ veml7700_it_val tA.code →
      veml7700_get_resolution gA.code tA.code ≤
        veml7700_get_resolution gB.code tB.code) :=
  ⟨fun g t => veml7700_resolution_bounds g.code t.code,
   fun _ _ _ _ hg ht => veml7700_resolution_mono hg ht⟩

/-- Witness for C6's monotonicity part at gain ×1 / IT 100ms on both
sides. -/
theorem veml7700_resolution_bounds_and_mono_witness :
    veml7700_gain_val VemlGain.g1.code ≤ veml7700_gain_val VemlGain.g1.code ∧
    veml7700_it_val VemlIt.it100.code ≤ veml7700_it_val VemlIt.it100.code ∧
    veml7700_get_resolution VemlGain.g1.code VemlIt.it100.code ≤
      veml7700_get_resolution VemlGain.g1.code VemlIt.it100.code :=
  ⟨le_refl _, le_refl _,
   veml7700_resolution_bounds_and_mono.2 VemlGain.g1 VemlGain.g1
     VemlIt.it100 VemlIt.it100 (le_refl _) (le_refl _)⟩

/-! ## Theorems: init device-ID check -/

/-- The register-write helper never reports `VEML7700_ERROR_INIT` itself. -/
lemma veml7700_write_reg_ne_init (sensor : Option Veml7700Sensor)
    (reg data : Nat) (bus : Bus) (k : Nat) :
    (veml7700_write_reg sensor reg data bus k).1 ≠ VEML7700_ERROR_INIT := by
  unfold veml7700_write_reg
  rcases sensor with _ | s
  · simp [VEML7700_ERROR_CONFIG, VEML7700_ERROR_INIT]
  · dsimp only
    split_ifs <;>
      simp [VEML7700_ERROR_CONFIG, VEML7700_ERROR_I2C_TX, VEML7700_OK,
        VEML7700_ERROR_INIT]

/-- Claim C2: `veml7700_init` accepts a device ID when its low byte is 0x81
or its high byte is 0x28 (never failing with `InitError` past the check);
when neither byte matches it returns `VEML7700_ERROR_INIT` and leaves the
handle marked uninitialized with no other state change. -/
theorem veml7700_init_id_check (s0 : Veml7700Sensor) (bus : Bus) (k : Nat)
    (d : Nat) (tr : List BusEvent)
    (hread : veml7700_read_reg (some { s0 with initialized := true })
      VEML7700_REG_ID true bus k = (VEML7700_OK, some d, tr)) :
    (((d &&& 0xFF) ≠ 0x81 ∧ (d >>> 8) ≠ 0x28) →
      veml7700_init (some s0) true bus k =
        (VEML7700_ERROR_INIT, some { s0 with initialized := false }, tr)) ∧
    (((d &&& 0xFF) = 0x81 ∨ (d >>> 8) = 0x28) →
      (veml7700_init (some s0) true bus k).1 ≠ VEML7700_ERROR_INIT) := by
  constructor
  · intro hrej
    simp [veml7700_init, hread, hrej]
  · intro hacc
    have hcond : ¬(((d &&& 0xFF) ≠ 0x81 ∧ (d >>> 8) ≠ 0x28)) := by tauto
    simp [veml7700_init, hread, hcond]
    split_ifs <;>
      first
        | exact veml7700_write_reg_ne_init _ _ _ _ _
        | simp [VEML7700_OK, VEML7700_ERROR_INIT]

/-- Witness for C2: a bus returning device ID 0x0000 (neither sentinel
byte), rejected with `InitError` and the handle left uninitialized. -/
theorem veml7700_init_id_check_witness :
    veml7700_read_reg (some ⟨0, 0, true, 0, 0⟩) VEML7700_REG_ID true
        healthyBus 0 =
      (VEML7700_OK, some 0,
        [BusEvent.write VEML7700_I2C_ADDRESS [VEML7700_REG_ID] true,
         BusEvent.read VEML7700_I2C_ADDRESS 2]) ∧
    ((0 &&& 0xFF) ≠ 0x81 ∧ (0 >>> 8) ≠ 0x28) ∧
    veml7700_init (some ⟨0, 0, false, 0, 0⟩) true healthyBus 0 =
      (VEML7700_ERROR_INIT, some ⟨0, 0, false, 0, 0⟩,
        [BusEvent.write VEML7700_I2C_ADDRESS [VEML7700_REG_ID] true,
         BusEvent.read VEML7700_I2C_ADDRESS 2]) :=
  ⟨by decide, by decide,
    (veml7700_init_id_check ⟨0, 0, false, 0, 0⟩ healthyBus 0 0
      [BusEvent.write VEML7700_I2C_ADDRESS [VEML7700_REG_ID] true,
       BusEvent.read VEML7700_I2C_ADDRESS 2] (by decide)).1 (by decide)⟩

/-! ## Theorems: readLux decodes gain and IT from the fresh register -/

/-- The `veml7700_read_als` on an initialized handle is exactly a register read
of the ALS register. -/
lemma veml7700_read_als_unfold (s : Veml7700Sensor)
    (hs : s.initialized = true) (bus : Bus) (k : Nat) :
    veml7700_read_als (some s) true bus k =
      veml7700_read_reg (some s) VEML7700_REG_ALS true bus k := by
  simp [veml7700_read_als, hs]

/-- A successful register read returns a decoded value and the
write-then-read two-transaction trace. -/
lemma veml7700_read_reg_ok_shape (s : Veml7700Sensor)
    (hs : s.initialized = true) (reg : Nat) (bus : Bus) (k : Nat)
    (h : (veml7700_read_reg (some s) reg true bus k).1 = VEML7700_OK) :
    ∃ v, veml7700_read_reg (some s) reg true bus k =
      (VEML7700_OK, some v,
        [BusEvent.write VEML7700_I2C_ADDRESS [reg] true,
         BusEvent.read VEML7700_I2C_ADDRESS 2]) := by
  simp only [veml7700_read_reg, hs, Bool.true_eq_false, if_false] at h ⊢
  split_ifs at h ⊢ <;>
    first
      | exact ⟨_, rfl⟩
      | simp [VEML7700_ERROR_I2C_TX, VEML7700_ERROR_I2C_RX, VEML7700_OK]
          at h

/-- Claim C3: when `veml7700_read_lux` succeeds, the stored lux value is
exactly `rawAls × resolution(gain, it)` where the gain code is bits 11–12
and the IT code is bits 6–9 of the configuration-register value read from
the device during this very call, and the cached `config_cache` /
`current_gain` / `current_it` fields are overwritten from that fresh
value. -/
theorem veml7700_read_lux_fresh_decode (s : Veml7700Sensor)
    (hs : s.initialized = true) (bus : Bus) (k : Nat)
    (hok : (veml7700_read_lux (some s) true bus k).1 = VEML7700_OK) :
    ∃ (als conf : Nat) (tr1 tr2 : List BusEvent),
      veml7700_read_als (some s) true bus k = (VEML7700_OK, some als, tr1) ∧
      veml7700_read_reg (some s) VEML7700_REG_ALS_CONF true bus
          (k + tr1.length) = (VEML7700_OK, some conf, tr2) ∧
      veml7700_read_lux (some s) true bus k =
        (VEML7700_OK,
          some { s with config_cache := conf,
                        current_gain := (conf >>> 11) &&& 0x03,
                        current_it := (conf >>> 6) &&& 0x0F },
          some ((als : ℚ) *
            veml7700_get_resolution ((conf >>> 11) &&& 0x03)
              ((conf >>> 6) &&& 0x0F)),
          tr1 ++ tr2) := by
  have hals := veml7700_read_als_unfold s hs bus k
  by_cases h1 :
      (veml7700_read_reg (some s) VEML7700_REG_ALS true bus k).1 =
        VEML7700_OK
  case neg =>
    exfalso
    simp only [veml7700_read_lux, hs, Bool.true_eq_false, if_false, hals]
      at hok
    rw [if_pos h1] at hok
    exact h1 hok
  obtain ⟨als, he1⟩ :=
    veml7700_read_reg_ok_shape s hs VEML7700_REG_ALS bus k h1
  by_cases h2 :
      (veml7700_read_reg (some s) VEML7700_REG_ALS_CONF true bus
        (k + 2)).1 = VEML7700_OK
  case neg =>
    exfalso
    simp [veml7700_read_lux, hs, hals, he1] at hok
    rw [if_neg h2] at hok
    exact h2 hok
  obtain ⟨conf, he2⟩ :=
    veml7700_read_reg_ok_shape s hs VEML7700_REG_ALS_CONF bus (k + 2) h2
  refine ⟨als, conf, _, _, hals.trans he1, he2, ?_⟩
  simp [veml7700_read_lux, hs, hals, he1, he2]

/-- Witness for C3: a healthy bus returning zero for both reads. -/
theorem veml7700_read_lux_fresh_decode_witness :
    (⟨0, 0, true, 0, 0⟩ : Veml7700Sensor).initialized = true ∧
    (veml7700_read_lux (some ⟨0, 0, true, 0, 0⟩) true healthyBus 0).1 =
      VEML7700_OK ∧
    ∃ (als conf : Nat) (tr1 tr2 : List BusEvent),
      veml7700_read_als (some ⟨0, 0, true, 0, 0⟩) true healthyBus 0 =
        (VEML7700_OK, some als, tr1) ∧
      veml7700_read_reg (some ⟨0, 0, true, 0, 0⟩) VEML7700_REG_ALS_CONF
          true healthyBus (0 + tr1.length) = (VEML7700_OK, some conf, tr2) ∧
      veml7700_read_lux (some ⟨0, 0, true, 0, 0⟩) true healthyBus 0 =
        (VEML7700_OK,
          some { (⟨0, 0, true, 0, 0⟩ : Veml7700Sensor) with
                   config_cache := conf,
                   current_gain := (conf >>> 11) &&& 0x03,
                   current_it := (conf >>> 6) &&& 0x0F },
          some ((als : ℚ) *
            veml7700_get_resolution ((conf >>> 11) &&& 0x03)
              ((conf >>> 6) &&& 0x0F)),
          tr1 ++ tr2) :=
  ⟨rfl, by decide,
    veml7700_read_lux_fresh_decode ⟨0, 0, true, 0, 0⟩ rfl healthyBus 0
      (by decide)⟩
